import Mathlib

/-!
Shallow embedding of `src/authentication/models.py` (fr_api): the custom
user model, its manager (`create_user`, `create_superuser`), display
helpers, and JWT token issuance.

The database is a list of persisted `User` rows; `save` mirrors the ORM
`save()` call (insert with a fresh primary key when `pk` is unset, update
in place otherwise).  External collaborators (the password hasher, the
HMAC-SHA256 primitive used by the JWT library, and the random suffix of an
unusable password) are parameters of the embedded functions, exactly the
data the Python code hands to them.  The clock is an integer count of
seconds since the epoch.
-/

namespace FrApi

/-- Python exception classes raised or mentioned by the manager code. -/
inductive PyError where
  | typeError (msg : String)
  | validationError (msg : String)
deriving DecidableEq, Repr

/-- Split a character list at the last occurrence of `c`
(Python `s.rsplit(c, 1)` when it succeeds, `none` for its `ValueError`). -/
def rsplitLast (c : Char) : List Char → Option (List Char × List Char)
  | [] => none
  | x :: xs =>
    match rsplitLast c xs with
    | some (a, b) => some (x :: a, b)
    | none => if x = c then some ([], xs) else none

/-- Django `BaseUserManager.normalize_email`, the external collaborator the
manager calls: lower-cases the domain part after the last `@` of the
stripped address; an address with no `@` is returned unchanged. -/
def normalize_email (email : String) : String :=
  match rsplitLast '@' email.trim.data with
  | none => email
  | some (nm, dom) => String.mk (nm ++ '@' :: dom.map Char.toLower)

/-- The `User` row of `authentication/models.py` (fields touched by the
manager and token code; `avatar` stands for the optional image reference,
`what_i_values` for the many-to-many tag set). -/
structure User where
  pk : Option Nat
  firstname : String
  lastname : String
  email : String
  password : String
  is_active : Bool
  is_staff : Bool
  is_superuser : Bool
  gender : Int
  birthday : Option String
  position : Option String
  company : Option String
  bio : Option String
  my_style : Option String
  how_to_help_me : Option String
  avatar : Option Nat
  what_i_values : List Nat
deriving DecidableEq, Repr

/-- ORM `save()`: a row without a primary key is inserted with the next
fresh key; a row with a key updates the stored row with that key. -/
def save (u : User) (db : List User) : User × List User :=
  match u.pk with
  | some _ => (u, db.map (fun v => if v.pk = u.pk then u else v))
  | none =>
    let u2 : User := { u with pk := some db.length }
    (u2, db ++ [u2])

/-- Django `AbstractBaseUser.set_password`, external collaborator:
`None` stores an unusable password (the `!` marker followed by a random
suffix `rand`), a present raw password stores its hash. -/
def set_password (hasher : String → String) (rand : String) :
    Option String → String
  | none => "!" ++ rand
  | some raw => hasher raw

/-- `UserManager.create_user`: validates `firstname`, `lastname`, `email`
in that order (raising `TypeError` with the source's exact messages),
builds the row with the normalized email and the schema defaults
(`is_active = true`, `is_staff = false`, `is_superuser = false`), sets the
password and saves.  Returns the raised error or the persisted user,
together with the resulting database. -/
def create_user (hasher : String → String) (rand : String)
    (firstname lastname email password : Option String) (gender : Int)
    (birthday position company bio my_style how_to_help_me : Option String)
    (db : List User) : Except PyError User × List User :=
  match firstname with
  | none => (Except.error (PyError.typeError "Users must have a fist name."), db)
  | some fn =>
  match lastname with
  | none => (Except.error (PyError.typeError "Users must have a last name."), db)
  | some ln =>
  match email with
  | none => (Except.error (PyError.typeError "Users must have an email address."), db)
  | some em =>
    let u0 : User :=
      { pk := none, firstname := fn, lastname := ln,
        email := normalize_email em, password := "",
        is_active := true, is_staff := false, is_superuser := false,
        gender := gender, birthday := birthday, position := position,
        company := company, bio := bio, my_style := my_style,
        how_to_help_me := how_to_help_me, avatar := none, what_i_values := [] }
    let u1 : User := { u0 with password := set_password hasher rand password }
    let r := save u1 db
    (Except.ok r.1, r.2)

/-- `UserManager.create_superuser`: requires a password (raising `TypeError`
with the source's message), delegates to `create_user` with the remaining
arguments at their defaults, then sets `is_superuser` and `is_staff` and
saves again. -/
def create_superuser (hasher : String → String) (rand : String)
    (firstname lastname email password : Option String)
    (db : List User) : Except PyError User × List User :=
  match password with
  | none => (Except.error (PyError.typeError "Superusers must have a password."), db)
  | some _ =>
    match create_user hasher rand firstname lastname email password 0
        none none none none none none db with
    | (Except.error e, db2) => (Except.error e, db2)
    | (Except.ok u, db2) =>
      let u2 : User := { u with is_superuser := true, is_staff := true }
      let r := save u2 db2
      (Except.ok r.1, r.2)

/-- `User.get_full_name`: `self.firstname + "" + self.lastname`. -/
def get_full_name (u : User) : String :=
  u.firstname ++ "" ++ u.lastname

/-- `User.get_short_name`: `self.firstname`. -/
def get_short_name (u : User) : String :=
  u.firstname

/-- A JSON value appearing in the token payload: `null` or a number.  The
`exp` value is exact here because the clock is modelled at whole seconds. -/
abbrev JsonNum := Option Int

/-- A JOSE token before serialization: the header's algorithm name, the
payload claims in order, and the signature the library computed with the
supplied MAC primitive over the secret and the payload. -/
structure Jwt where
  alg : String
  payload : List (String × JsonNum)
  sig : String
deriving DecidableEq, Repr

/-- Deterministic rendering of the payload handed to the MAC primitive. -/
def payloadRepr (ps : List (String × JsonNum)) : String :=
  String.join (ps.map (fun kv =>
    kv.1 ++ ":" ++ (match kv.2 with | none => "null" | some n => toString n) ++ ";"))

/-- `jwt.encode(payload, secret, algorithm='HS256')`: sign the payload with
the HMAC-SHA256 primitive `mac` under `secret`. -/
def jwtEncode (mac : String → String → String)
    (payload : List (String × JsonNum)) (secret : String) : Jwt :=
  { alg := "HS256", payload := payload, sig := mac secret (payloadRepr payload) }

/-- `jwt.decode(token, secret)`: check the algorithm and recompute the
signature with the same secret; on success return the embedded claims. -/
def jwtDecode (mac : String → String → String) (t : Jwt) (secret : String) :
    Option (List (String × JsonNum)) :=
  if t.alg = "HS256" ∧ t.sig = mac secret (payloadRepr t.payload)
  then some t.payload else none

/-- `User._generate_jwt_token`: `dt = now + 60 days`; encode
`{'id': self.pk, 'exp': dt.timestamp() * 1000}` under the process secret
with HS256.  `now` is the clock reading in seconds since the epoch. -/
def generate_jwt_token (mac : String → String → String) (u : User)
    (now : Int) (secret : String) : Jwt :=
  let dt := now + 60 * 86400
  jwtEncode mac [("id", u.pk.map (fun k => (k : Int))), ("exp", some (dt * 1000))] secret

/-- The read-only `token` property: delegates to `_generate_jwt_token`. -/
def User.token (mac : String → String → String) (u : User)
    (now : Int) (secret : String) : Jwt :=
  generate_jwt_token mac u now secret

/-- A concrete password hasher standing in for the external primitive in
closed statements. -/
def hasherDemo (raw : String) : String :=
  "pbkdf2_sha256$" ++ raw

/-- A concrete MAC standing in for the external HMAC-SHA256 primitive in
closed statements. -/
def macDemo (secret msg : String) : String :=
  secret ++ "|" ++ msg

/-- The row `create_user` builds when all required fields are present and
the database holds `k` rows before the call. -/
def created_user (hasher : String → String) (rand : String)
    (fn ln em : String) (password : Option String) (gender : Int)
    (birthday position company bio my_style how_to_help_me : Option String)
    (k : Nat) : User :=
  { pk := some k, firstname := fn, lastname := ln,
    email := normalize_email em, password := set_password hasher rand password,
    is_active := true, is_staff := false, is_superuser := false,
    gender := gender, birthday := birthday, position := position,
    company := company, bio := bio, my_style := my_style,
    how_to_help_me := how_to_help_me, avatar := none, what_i_values := [] }

/-- Closed form of a `create_user` call with all required fields present:
it returns the built row and appends it to the database. -/
theorem create_user_ok_eq (hasher : String → String) (rand : String)
    (fn ln em : String) (password : Option String) (gender : Int)
    (birthday position company bio my_style how_to_help_me : Option String)
    (db : List User) :
    create_user hasher rand (some fn) (some ln) (some em) password gender
        birthday position company bio my_style how_to_help_me db
      = (Except.ok (created_user hasher rand fn ln em password gender
            birthday position company bio my_style how_to_help_me db.length),
         db ++ [created_user hasher rand fn ln em password gender
            birthday position company bio my_style how_to_help_me db.length]) := rfl

/-- The row `create_superuser` returns on success: the delegated row with
both administrative flags set. -/
def promoted_user (hasher : String → String) (rand : String)
    (fn ln em p : String) (k : Nat) : User :=
  { created_user hasher rand fn ln em (some p) 0 none none none none none none k with
    is_superuser := true, is_staff := true }

/-- Closed form of a successful `create_superuser` call: the delegated row
is inserted, then updated in place with the administrative flags set. -/
theorem create_superuser_ok_eq (hasher : String → String) (rand : String)
    (fn ln em p : String) (db : List User) :
    create_superuser hasher rand (some fn) (some ln) (some em) (some p) db
      = (Except.ok (promoted_user hasher rand fn ln em p db.length),
         (db ++ [created_user hasher rand fn ln em (some p) 0
             none none none none none none db.length]).map
           (fun v => if v.pk = (promoted_user hasher rand fn ln em p db.length).pk
                     then promoted_user hasher rand fn ln em p db.length else v)) := rfl

/-- A concrete persisted account for closed statements. -/
def userAnn : User :=
  { pk := some 7, firstname := "Ann", lastname := "Lee",
    email := "ann@example.com", password := "pbkdf2_sha256$pw123",
    is_active := true, is_staff := false, is_superuser := false,
    gender := 0, birthday := none, position := none, company := none,
    bio := none, my_style := none, how_to_help_me := none,
    avatar := none, what_i_values := [] }

/-- A second concrete account sharing only `userAnn`'s primary key. -/
def userAnnVariant : User :=
  { pk := some 7, firstname := "Annette", lastname := "Leigh",
    email := "annette@example.org", password := "pbkdf2_sha256$other",
    is_active := false, is_staff := true, is_superuser := true,
    gender := 1, birthday := some "1990-01-01", position := some "dev",
    company := some "acme", bio := some "b", my_style := some "s",
    how_to_help_me := some "h", avatar := some 3, what_i_values := [1, 2] }

/-- C1: for a persisted account (one whose primary key is set), decoding
the token issued by the `token` property with the same secret and
HMAC-SHA256 primitive yields exactly the claims `id` (the account's key)
and `exp` (the clock reading plus 60 days, in milliseconds since
the epoch). -/
theorem c1_token_decodes_to_id_and_exp (mac : String → String → String)
    (u : User) (now : Int) (secret : String) (k : Nat) (h : u.pk = some k) :
    jwtDecode mac (User.token mac u now secret) secret
      = some [("id", some (k : Int)), ("exp", some ((now + 60 * 86400) * 1000))] := by
  simp [User.token, generate_jwt_token, jwtEncode, jwtDecode, h]

/-- Witness for C1 at a concrete persisted account. -/
theorem c1_token_decodes_to_id_and_exp_witness :
    jwtDecode macDemo (User.token macDemo userAnn 1700000000 "secret") "secret"
      = some [("id", some (7 : Int)),
              ("exp", some ((1700000000 + 60 * 86400) * 1000))] :=
  c1_token_decodes_to_id_and_exp macDemo userAnn 1700000000 "secret" 7 rfl

/-- C2 counterexample: with `firstname` absent, `create_user` raises
`TypeError`, not `ValidationError`. -/
theorem c2_missing_firstname_not_validation_error :
    (create_user hasherDemo "r" none (some "Lee") (some "ann@example.com")
        (some "pw123") 0 none none none none none none []).1
      = Except.error (PyError.typeError "Users must have a fist name.")
    ∧ ∀ m : String,
      (create_user hasherDemo "r" none (some "Lee") (some "ann@example.com")
          (some "pw123") 0 none none none none none none []).1
        ≠ Except.error (PyError.validationError m) := by
  refine ⟨rfl, ?_⟩
  intro m h
  simp [create_user] at h

/-- C2 (amended): a `create_user` call with `firstname`, `lastname` or
`email` absent fails by raising `TypeError` and leaves the database
unchanged; with all three present no error is raised and the new row is
persisted. -/
theorem c2_create_user_requires_fields (hasher : String → String) (rand : String)
    (firstname lastname email password : Option String) (gender : Int)
    (birthday position company bio my_style how_to_help_me : Option String)
    (db : List User) :
    ((firstname = none ∨ lastname = none ∨ email = none) →
      ∃ msg, create_user hasher rand firstname lastname email password gender
          birthday position company bio my_style how_to_help_me db
        = (Except.error (PyError.typeError msg), db))
    ∧ (∀ fn ln em, firstname = some fn → lastname = some ln → email = some em →
      ∃ u db2, create_user hasher rand firstname lastname email password gender
          birthday position company bio my_style how_to_help_me db
        = (Except.ok u, db2) ∧ db2 = db ++ [u]) := by
  constructor
  · rintro (rfl | rfl | rfl)
    · exact ⟨_, rfl⟩
    · cases firstname <;> exact ⟨_, rfl⟩
    · cases firstname <;> cases lastname <;> exact ⟨_, rfl⟩
  · rintro fn ln em rfl rfl rfl
    exact ⟨_, _, rfl, rfl⟩

/-- Witness for C2's amended claim at a concrete call with a missing
`lastname`. -/
theorem c2_create_user_requires_fields_witness :
    ∃ msg, create_user hasherDemo "r" (some "Ann") none (some "ann@example.com")
        (some "pw123") 0 none none none none none none []
      = (Except.error (PyError.typeError msg), []) :=
  (c2_create_user_requires_fields hasherDemo "r" (some "Ann") none
      (some "ann@example.com") (some "pw123") 0
      none none none none none none []).1 (Or.inr (Or.inl rfl))

/-- C3 counterexample: with `password` absent, `create_superuser` raises
`TypeError`, not `ValidationError`. -/
theorem c3_missing_password_not_validation_error :
    (create_superuser hasherDemo "r" (some "Ann") (some "Lee")
        (some "ann@example.com") none []).1
      = Except.error (PyError.typeError "Superusers must have a password.")
    ∧ ∀ m : String,
      (create_superuser hasherDemo "r" (some "Ann") (some "Lee")
          (some "ann@example.com") none []).1
        ≠ Except.error (PyError.validationError m) := by
  refine ⟨rfl, ?_⟩
  intro m h
  simp [create_superuser] at h

/-- C3 (amended): `create_superuser` with `password` absent fails by
raising `TypeError` and leaves the database unchanged; with a password
present the password check raises nothing (any failure comes from the
delegated `create_user` checks, whose messages differ). -/
theorem c3_create_superuser_requires_password (hasher : String → String)
    (rand : String) (firstname lastname email password : Option String)
    (db : List User) :
    (password = none →
      create_superuser hasher rand firstname lastname email password db
        = (Except.error (PyError.typeError "Superusers must have a password."), db))
    ∧ (∀ p, password = some p →
      (create_superuser hasher rand firstname lastname email password db).1
        ≠ Except.error (PyError.typeError "Superusers must have a password.")) := by
  constructor
  · rintro rfl
    rfl
  · rintro p rfl
    cases firstname <;> cases lastname <;> cases email <;>
      simp [create_superuser, create_user, save]

/-- Witness for C3's amended claim at a concrete call with no password. -/
theorem c3_create_superuser_requires_password_witness :
    create_superuser hasherDemo "r" (some "Ann") (some "Lee")
        (some "ann@example.com") none []
      = (Except.error (PyError.typeError "Superusers must have a password."), []) :=
  (c3_create_superuser_requires_password hasherDemo "r" (some "Ann") (some "Lee")
      (some "ann@example.com") none []).1 rfl

/-- C4: a successful `create_superuser` call returns exactly the account
`create_user` built for those fields, with `is_staff` and `is_superuser`
set to `true`, saved again, and that returned row is in the resulting
database. -/
theorem c4_create_superuser_promotes (hasher : String → String) (rand : String)
    (firstname lastname email password : Option String) (db : List User)
    (u : User) (db2 : List User)
    (h : create_superuser hasher rand firstname lastname email password db
          = (Except.ok u, db2)) :
    ∃ u0 db0,
      create_user hasher rand firstname lastname email password 0
          none none none none none none db = (Except.ok u0, db0)
      ∧ u = { u0 with is_superuser := true, is_staff := true }
      ∧ (u, db2) = save { u0 with is_superuser := true, is_staff := true } db0
      ∧ u ∈ db2 := by
  cases password with
  | none => exact absurd h (by simp [create_superuser])
  | some p =>
    cases firstname with
    | none => exact absurd h (by simp [create_superuser, create_user])
    | some fn =>
    cases lastname with
    | none => exact absurd h (by simp [create_superuser, create_user])
    | some ln =>
    cases email with
    | none => exact absurd h (by simp [create_superuser, create_user])
    | some em =>
      rw [create_superuser_ok_eq] at h
      simp only [Prod.mk.injEq, Except.ok.injEq] at h
      obtain ⟨rfl, rfl⟩ := h
      exact ⟨_, _, create_user_ok_eq hasher rand fn ln em (some p) 0
          none none none none none none db, rfl, rfl,
        List.mem_map.mpr ⟨created_user hasher rand fn ln em (some p) 0
            none none none none none none db.length,
          by simp, by simp [created_user, promoted_user]⟩⟩

/-- Witness for C4 at the concrete superuser call on an empty database. -/
theorem c4_create_superuser_promotes_witness :
    ∃ u0 db0,
      create_user hasherDemo "r" (some "Ann") (some "Lee")
          (some "ann@example.com") (some "pw123") 0
          none none none none none none [] = (Except.ok u0, db0)
      ∧ promoted_user hasherDemo "r" "Ann" "Lee" "ann@example.com" "pw123" 0
          = { u0 with is_superuser := true, is_staff := true }
      ∧ (promoted_user hasherDemo "r" "Ann" "Lee" "ann@example.com" "pw123" 0,
          (create_superuser hasherDemo "r" (some "Ann") (some "Lee")
            (some "ann@example.com") (some "pw123") []).2)
          = save { u0 with is_superuser := true, is_staff := true } db0
      ∧ promoted_user hasherDemo "r" "Ann" "Lee" "ann@example.com" "pw123" 0
          ∈ (create_superuser hasherDemo "r" (some "Ann") (some "Lee")
              (some "ann@example.com") (some "pw123") []).2 :=
  c4_create_superuser_promotes hasherDemo "r" (some "Ann") (some "Lee")
    (some "ann@example.com") (some "pw123") []
    (promoted_user hasherDemo "r" "Ann" "Lee" "ann@example.com" "pw123" 0)
    ((create_superuser hasherDemo "r" (some "Ann") (some "Lee")
        (some "ann@example.com") (some "pw123") []).2) rfl

/-- C5: the email stored on a successfully created account is the
normalized form of the email argument. -/
theorem c5_email_normalized (hasher : String → String) (rand : String)
    (fn ln email : String) (password : Option String) (gender : Int)
    (birthday position company bio my_style how_to_help_me : Option String)
    (db : List User) (u : User) (db2 : List User)
    (h : create_user hasher rand (some fn) (some ln) (some email) password gender
          birthday position company bio my_style how_to_help_me db
        = (Except.ok u, db2)) :
    u.email = normalize_email email := by
  rw [create_user_ok_eq] at h
  simp only [Prod.mk.injEq, Except.ok.injEq] at h
  obtain ⟨rfl, rfl⟩ := h
  rfl

/-- Witness for C5 at an address whose domain gets lower-cased, so the
stored email differs from the raw argument. -/
theorem c5_email_normalized_witness :
    ((create_user hasherDemo "r" (some "Ann") (some "Lee")
        (some "Ann@EXAMPLE.COM") (some "pw123") 0
        none none none none none none []).1.toOption.getD userAnn).email
      = normalize_email "Ann@EXAMPLE.COM" :=
  c5_email_normalized hasherDemo "r" "Ann" "Lee" "Ann@EXAMPLE.COM"
    (some "pw123") 0 none none none none none none [] _ _ rfl

/-- C6: `get_full_name` is the two names concatenated with no separating
space and `get_short_name` is the first name alone. -/
theorem c6_display_helpers (u : User) :
    get_full_name u = u.firstname ++ u.lastname
    ∧ get_short_name u = u.firstname := by
  refine ⟨?_, rfl⟩
  simp [get_full_name]

/-- C7: after a successful `create_user` call the stored password is the
`set_password` image of the argument: the hash when a raw password is
present, the unusable `!`-marked value when it is absent, and in either
case non-empty (given the external hasher never returns the empty
string). -/
theorem c7_password_hash_nonempty (hasher : String → String) (rand : String)
    (fn ln em : String) (password : Option String) (gender : Int)
    (birthday position company bio my_style how_to_help_me : Option String)
    (db : List User) (u : User) (db2 : List User)
    (hhash : ∀ s, hasher s ≠ "")
    (h : create_user hasher rand (some fn) (some ln) (some em) password gender
          birthday position company bio my_style how_to_help_me db
        = (Except.ok u, db2)) :
    u.password = set_password hasher rand password
    ∧ u.password ≠ ""
    ∧ (password = none → u.password = "!" ++ rand)
    ∧ (∀ p, password = some p → u.password = hasher p) := by
  rw [create_user_ok_eq] at h
  simp only [Prod.mk.injEq, Except.ok.injEq] at h
  obtain ⟨rfl, rfl⟩ := h
  refine ⟨rfl, ?_, ?_, ?_⟩
  · show set_password hasher rand password ≠ ""
    cases password with
    | none =>
      intro he
      have hl := congrArg String.length he
      simp [set_password, String.length_append] at hl
      exact absurd hl.1 (by decide)
    | some p => exact hhash p
  · rintro rfl
    rfl
  · rintro p rfl
    rfl

/-- Witness for C7 with a hasher that never returns the empty string, at a
call with a password present. -/
theorem c7_password_hash_nonempty_witness :
    ((create_user hasherDemo "r" (some "Ann") (some "Lee")
          (some "ann@example.com") (some "pw123") 0
          none none none none none none []).1.toOption.getD userAnn).password
        = set_password hasherDemo "r" (some "pw123")
    ∧ ((create_user hasherDemo "r" (some "Ann") (some "Lee")
          (some "ann@example.com") (some "pw123") 0
          none none none none none none []).1.toOption.getD userAnn).password
        ≠ "" :=
  ⟨(c7_password_hash_nonempty hasherDemo "r" "Ann" "Lee" "ann@example.com"
      (some "pw123") 0 none none none none none none [] _ _
      (fun s he => by
        have hl := congrArg String.length he
        simp [hasherDemo, String.length_append] at hl
        exact absurd hl.1 (by decide)) rfl).1,
   (c7_password_hash_nonempty hasherDemo "r" "Ann" "Lee" "ann@example.com"
      (some "pw123") 0 none none none none none none [] _ _
      (fun s he => by
        have hl := congrArg String.length he
        simp [hasherDemo, String.length_append] at hl
        exact absurd hl.1 (by decide)) rfl).2.1⟩

/-- C8: token issuance is a pure function of the account's identifier, the
clock reading, the secret and the MAC primitive: two invocations on
accounts with the same primary key, at the same clock reading and secret,
produce identical tokens, whatever the accounts' other fields; the account
is not touched. -/
theorem c8_token_deterministic (mac : String → String → String)
    (u1 u2 : User) (now : Int) (secret : String) (h : u1.pk = u2.pk) :
    User.token mac u1 now secret = User.token mac u2 now secret := by
  simp [User.token, generate_jwt_token, jwtEncode, h]

/-- Witness for C8: two accounts agreeing only on the primary key get the
same token. -/
theorem c8_token_deterministic_witness :
    User.token macDemo userAnn 1700000000 "secret"
      = User.token macDemo userAnnVariant 1700000000 "secret" :=
  c8_token_deterministic macDemo userAnn userAnnVariant 1700000000 "secret" rfl

/-- C9: a successfully created account carries the schema defaults
`is_active = true` and `is_staff = false`. -/
theorem c9_create_user_defaults (hasher : String → String) (rand : String)
    (fn ln em : String) (password : Option String) (gender : Int)
    (birthday position company bio my_style how_to_help_me : Option String)
    (db : List User) (u : User) (db2 : List User)
    (h : create_user hasher rand (some fn) (some ln) (some em) password gender
          birthday position company bio my_style how_to_help_me db
        = (Except.ok u, db2)) :
    u.is_active = true ∧ u.is_staff = false := by
  rw [create_user_ok_eq] at h
  simp only [Prod.mk.injEq, Except.ok.injEq] at h
  obtain ⟨rfl, rfl⟩ := h
  exact ⟨rfl, rfl⟩

/-- Witness for C9 at the spec's example call. -/
theorem c9_create_user_defaults_witness :
    ((create_user hasherDemo "r" (some "Ann") (some "Lee")
          (some "ann@example.com") (some "pw123") 0
          none none none none none none []).1.toOption.getD userAnnVariant).is_active
        = true
    ∧ ((create_user hasherDemo "r" (some "Ann") (some "Lee")
          (some "ann@example.com") (some "pw123") 0
          none none none none none none []).1.toOption.getD userAnnVariant).is_staff
        = false :=
  c9_create_user_defaults hasherDemo "r" "Ann" "Lee" "ann@example.com"
    (some "pw123") 0 none none none none none none [] _ _ rfl

/-- C10: validation precedence: `create_user` reports a missing
`firstname` first, then a missing `lastname`, then a missing `email`,
whatever the other arguments; `create_superuser` reports a missing
password before any of the delegated checks, whatever the other
arguments. -/
theorem c10_validation_precedence (hasher : String → String) (rand : String) :
    (∀ lastname email password gender
        birthday position company bio my_style how_to_help_me db,
      create_user hasher rand none lastname email password gender
          birthday position company bio my_style how_to_help_me db
        = (Except.error (PyError.typeError "Users must have a fist name."), db))
    ∧ (∀ fn email password gender
        birthday position company bio my_style how_to_help_me db,
      create_user hasher rand (some fn) none email password gender
          birthday position company bio my_style how_to_help_me db
        = (Except.error (PyError.typeError "Users must have a last name."), db))
    ∧ (∀ fn ln password gender
        birthday position company bio my_style how_to_help_me db,
      create_user hasher rand (some fn) (some ln) none password gender
          birthday position company bio my_style how_to_help_me db
        = (Except.error (PyError.typeError "Users must have an email address."), db))
    ∧ (∀ firstname lastname email db,
      create_superuser hasher rand firstname lastname email none db
        = (Except.error (PyError.typeError "Superusers must have a password."), db)) :=
  ⟨fun _ _ _ _ _ _ _ _ _ _ _ => rfl, fun _ _ _ _ _ _ _ _ _ _ _ => rfl,
   fun _ _ _ _ _ _ _ _ _ _ _ => rfl, fun _ _ _ _ => rfl⟩

end FrApi
